import Mathlib

/-!
# Verification of the ai-log-analyzer pipeline

Shallow embedding of the three analyzer scripts of the repository
(`analyze_log.py`, `analyze_and_comment.py`, `scripts/analyze_log.py`)
and proofs about the truncation step, prompt construction, fail-soft
AI invocation, report formatting, and orchestration order.

Python strings are modelled as `List Char` (one element per code point,
matching Python `len`/slicing semantics).  External effects (file system,
environment, HTTP) are modelled as explicit outcome parameters; the
observable behaviour of a run (exit code, event order, issued backend
calls and their timeout arguments, written report content) is returned
as data.
-/

set_option maxRecDepth 10000

/-- Python text: a string as a sequence of code points. -/
abbrev Text := List Char

/-- Shorthand to write a `Text` literal. -/
def str (s : String) : Text := s.toList

/-- Python truthiness of an optional environment variable:
`os.getenv` yields `None` (unset) or a string; `if not api_key:` is
taken when the variable is unset or set to the empty string. -/
def pyTruthy : Option Text → Bool
  | none => false
  | some s => !s.isEmpty

/-- Python `s[-k:]` for a nonnegative `k`: the last `k` characters,
except that `k = 0` denotes `s[0:]`, i.e. the whole string
(`-0 == 0` in Python). -/
def pyTail (s : Text) (k : Nat) : Text :=
  if k = 0 then s else s.drop (s.length - k)

/-- Observable steps of a run, in program order. -/
inductive Event
  | readLog
  | truncNote
  | backendCall
  | saveAttempt
  | saveOk
  | saveFail
  | publishAttempt
  | publishOk
  | publishWarn
  | displayAnalysis
deriving DecidableEq

/-- Outcome of reading the log source: the decoded content, or an
`IOError`-like failure (file not found / unreadable). -/
inductive ReadOutcome
  | ok (content : Text)
  | err (msg : Text)

/-- Outcome of the attempt to call the Gemini backend through the
`google.generativeai` client (`model.generate_content(prompt)` inside the
`try:` block): either the response text, or any raised exception with its
message (connection error, non-success status, rate limit, timeout, or a
response without the expected text — the client raises in all of them). -/
inductive BackendOutcome
  | ok (text : Text)
  | exc (msg : Text)

/-- JSON body of a Gemini HTTP response as consumed by
`scripts/analyze_log.py`: either it has a `candidates` field — whose
nested extraction `data["candidates"][0]["content"]["parts"][0]["text"]`
yields the text, or raises on a malformed inner shape — or it has no
`candidates` field and the code returns `json.dumps(data, indent=2)`. -/
inductive JsonData
  | withCandidates (extract : Except Text Text)
  | without (dump : Text)

/-- Outcome of the HTTP layer in `scripts/analyze_log.py`:
`requests.post(..., timeout=60)` or `resp.raise_for_status()` raises
(connection error, timeout, non-2xx status), or a JSON body is
delivered. -/
inductive HttpOutcome
  | raises (msg : Text)
  | json (d : JsonData)

/-- The fixed omission marker prepended when the log is truncated
(both full analyzers, `analyze_log.py` line 37 and
`analyze_and_comment.py` line 38). -/
def omissionMarker : Text := str "...[earlier output truncated]...\n\n"

/-- The truncation step shared by both full analyzers:
`if len(log_content) > max_chars: log_content = "...[earlier output
truncated]...\n\n" + log_content[-max_chars:]`.  Returns the resulting
text together with whether the truncating branch was taken. -/
def truncate (log_content : Text) (max_chars : Nat) : Text × Bool :=
  if max_chars < log_content.length then
    (omissionMarker ++ pyTail log_content max_chars, true)
  else
    (log_content, false)

/-- The fixed message returned by both full analyzers when
`GEMINI_API_KEY` is unset (`analyze_log.py` line 32,
`analyze_and_comment.py` line 33). -/
def missingKeyMsg : Text := str "❌ Error: GEMINI_API_KEY environment variable not set"

/-- A calendar timestamp, standing for the fields of `datetime.now()`
that `strftime('%Y-%m-%d %H:%M:%S')` renders. -/
structure DateTime where
  year : Nat
  month : Nat
  day : Nat
  hour : Nat
  minute : Nat
  second : Nat
deriving DecidableEq

/-- Two-digit zero-padded decimal rendering (`%m`, `%d`, `%H`, `%M`, `%S`). -/
def pad2 (n : Nat) : Text := [Nat.digitChar (n / 10), Nat.digitChar (n % 10)]

/-- Four-digit zero-padded decimal rendering (`%Y`). -/
def pad4 (n : Nat) : Text :=
  [Nat.digitChar (n / 1000), Nat.digitChar (n / 100 % 10),
   Nat.digitChar (n / 10 % 10), Nat.digitChar (n % 10)]

/-- `datetime.strftime('%Y-%m-%d %H:%M:%S')` on the given timestamp. -/
def strftimeTS (t : DateTime) : Text :=
  pad4 t.year ++ ['-'] ++ pad2 t.month ++ ['-'] ++ pad2 t.day ++ [' ']
    ++ pad2 t.hour ++ [':'] ++ pad2 t.minute ++ [':'] ++ pad2 t.second

/-- Numeric value of a decimal digit character. -/
def digitVal (c : Char) : Option Nat :=
  if c.isDigit then some (c.toNat - 48) else none

/-- Parser for the report timestamp format `YYYY-MM-DD HH:MM:SS`:
succeeds exactly on 19-character texts of that shape. -/
def parseTimestamp : Text → Option DateTime
  | [y1, y2, y3, y4, '-', m1, m2, '-', d1, d2, ' ',
     h1, h2, ':', n1, n2, ':', s1, s2] =>
    match digitVal y1, digitVal y2, digitVal y3, digitVal y4,
          digitVal m1, digitVal m2, digitVal d1, digitVal d2,
          digitVal h1, digitVal h2, digitVal n1, digitVal n2,
          digitVal s1, digitVal s2 with
    | some a, some b, some c, some d, some e, some f, some g, some h,
      some i, some j, some k, some l, some m, some n =>
      some ⟨1000 * a + 100 * b + 10 * c + d, 10 * e + f, 10 * g + h,
            10 * i + j, 10 * k + l, 10 * m + n⟩
    | _, _, _, _, _, _, _, _, _, _, _, _, _, _ => none
  | _ => none

/-- Result of one invocation of the `analyze_with_gemini` step:
its returned analysis text, the observable events (truncation notice,
backend call), the timeout argument of each issued backend call, and the
prompt that was built (if the key-present path was reached). -/
structure InvokeOut where
  result : Text
  events : List Event
  timeouts : List (Option Nat)
  promptBuilt : Option Text

/-- Observable outcome of a whole run of one of the scripts. -/
structure RunOut where
  exitCode : Nat
  events : List Event
  timeouts : List (Option Nat)
  written : Option Text

/-- Observable outcome of a run of the publishing variant. -/
structure RunOutPub where
  exitCode : Nat
  events : List Event
  timeouts : List (Option Nat)
  written : Option Text
  posted : Bool

/-! ## Section names shared by the prompt templates -/

def secRootCause : Text := str "Root Cause"
def secErrorLocation : Text := str "Error Location"
def secRecommendedFixes : Text := str "Recommended Fixes"
def secPreventionTips : Text := str "Prevention Tips"
def secResources : Text := str "Resources"
def secDocumentation : Text := str "Documentation"

/-- The `"=" * 80` delimiter line used by both `save_analysis`
functions. -/
def eq80 : Text := List.replicate 80 '='

/-- A single newline, as written by the report formatters. -/
def nl : Text := str "\n"

/-- A blank line, as written by the report formatters. -/
def nl2 : Text := str "\n\n"

/-- The report title line text (both `save_analysis` functions). -/
def rcTitle : Text := str "🤖 AI-POWERED BUILD FAILURE ANALYSIS"

/-- The label before the timestamp (both `save_analysis` functions). -/
def rcGen : Text := str "Generated: "

/-- The tool attribution text appearing in both report envelopes. -/
def attribution : Text := str "Jenkins AI Log Analyzer"

namespace AnalyzeLog

/-! Embedding of `src/analyze_log.py` (standalone analyzer). -/

/-- Prompt template pieces of `analyze_log.py` (lines 45–81): the
concatenation below is character-identical to the source f-string. -/
def alP0 : Text := str "\nYou are an expert DevOps engineer analyzing a Jenkins CI/CD build failure log.\n\nYour task is to analyze this build log and provide:\n\n## 🔍 "

def alP1 : Text := str "\nIdentify the PRIMARY reason for the build failure. Be specific and concise (2-3 sentences).\n\n## 📍 "

def alP2 : Text := str "\nPoint to the exact file, line number, command, or stage where the failure occurred.\nInclude the actual error message if present.\n\n## 🔧 "

def alP3 : Text := str "\nProvide 3-5 ACTIONABLE steps to resolve this issue:\n1. [First concrete step with specific commands if applicable]\n2. [Second step]\n3. [Third step]\netc.\n\n## 💡 "

def alP4 : Text := str "\nSuggest 2-3 best practices to prevent this issue in the future.\n\n## 🔗 Additional "

def alP5 : Text := str "\nIf applicable, mention relevant documentation links or related issues.\n\nBuild Log to Analyze:\n"

def alP6 : Text := str "\n\nIMPORTANT:\n- Be technical but clear\n- Focus on actionable insights\n- Use bullet points for readability\n- Include code examples when relevant\n- Format response in clean Markdown\n"

/-- The constant prompt text before the embedded window
(`analyze_log.py` lines 45–71), up to and including the opening `---`
delimiter line. -/
def promptPre : Text :=
  alP0 ++ secRootCause ++ alP1 ++ secErrorLocation ++ alP2 ++ secRecommendedFixes
    ++ alP3 ++ secPreventionTips ++ alP4 ++ secResources ++ alP5 ++ str "---\n"

/-- The constant prompt text after the embedded window
(`analyze_log.py` lines 73–81), starting with the closing `---`
delimiter. -/
def promptPost : Text := str "\n---" ++ alP6

/-- The prompt f-string of `analyze_log.py` (lines 45–81): the constant
template with the (possibly truncated) log embedded between the `---`
delimiter lines. -/
def promptOf (log_content : Text) : Text := promptPre ++ log_content ++ promptPost

/-- Fallback template pieces of `analyze_log.py` (lines 89–114). -/
def alE0 : Text := str "\n❌ **Error During AI Analysis**\n```\n"

def alE1 : Text := str "\n```\n\n"

def alE2 : Text := str "\n- Invalid or expired API key\n- Network connectivity issues  \n- API rate limit exceeded\n- Gemini service temporarily unavailable\n\n"

def alE3 : Text := str "\n2. Check your API key at: https://aistudio.google.com/app/apikey\n3. Ensure you have internet connectivity\n4. Check Gemini API status\n5. Review API usage limits on your account\n\n**Manual Log Review:**\nPlease review the build log manually to identify:\n- Error messages (lines containing \"ERROR\", \"FAILED\", \"Exception\")\n- Exit codes (non-zero values)\n- Stack traces\n- Missing dependencies\n"

/-- The fallback analysis produced when the AI call raises
(`analyze_log.py` lines 89–114), with the exception message embedded;
the concatenation is character-identical to the source f-string
(including the two trailing spaces of the
`- Network connectivity issues  ` line). -/
def error_analysis (msg : Text) : Text :=
  alE0 ++ msg
    ++ (alE1 ++ str "**Possible Causes:**" ++ alE2
        ++ str "**Troubleshooting Steps:**" ++ nl
        ++ str "1. Verify GEMINI_API_KEY environment variable is set correctly"
        ++ alE3)

/-- `analyze_with_gemini(log_content, max_chars=30000)` of
`analyze_log.py` (lines 27–115).  The environment variable and the
backend attempt are explicit parameters; the function never raises:
it returns the response text, the fixed missing-key message, or the
fallback `error_analysis`.  The single `model.generate_content(prompt)`
call carries no explicit timeout argument in the source, recorded here
as `none`. -/
def analyze_with_gemini (api_key : Option Text) (backend : BackendOutcome)
    (log_content : Text) (max_chars : Nat) : InvokeOut :=
  if pyTruthy api_key = false then
    { result := missingKeyMsg, events := [], timeouts := [], promptBuilt := none }
  else
    let t := truncate log_content max_chars
    let truncEvents : List Event := if t.2 then [Event.truncNote] else []
    let prompt := promptOf t.1
    match backend with
    | BackendOutcome.ok txt =>
        { result := txt, events := truncEvents ++ [Event.backendCall],
          timeouts := [none], promptBuilt := some prompt }
    | BackendOutcome.exc m =>
        { result := error_analysis m, events := truncEvents ++ [Event.backendCall],
          timeouts := [none], promptBuilt := some prompt }

/-- Header segment tags of `save_analysis` (`analyze_log.py`
lines 124–130). -/
def alTagAnalyzer : Text := str "Analyzer: "

def alTagModel : Text := str "AI Model: Google Gemini 2.0 Flash"

def alEnd : Text := str "End of Analysis"

/-- The header written before the analysis text by `save_analysis`
(`analyze_log.py` lines 124–130). -/
def reportHeader (dt : DateTime) : Text :=
  eq80 ++ nl ++ rcTitle ++ nl ++ eq80 ++ nl
    ++ rcGen ++ strftimeTS dt ++ nl
    ++ alTagAnalyzer ++ attribution ++ nl
    ++ alTagModel ++ nl
    ++ eq80 ++ nl2

/-- The footer written after the analysis text by `save_analysis`
(`analyze_log.py` lines 132–134). -/
def reportFooter : Text := nl2 ++ eq80 ++ nl ++ alEnd ++ nl ++ eq80 ++ nl

/-- The exact file content written by `save_analysis`
(`analyze_log.py` lines 118–134) around the analysis text, with the
`datetime.now()` timestamp rendered by `strftime('%Y-%m-%d %H:%M:%S')`. -/
def reportContent (analysis_text : Text) (dt : DateTime) : Text :=
  reportHeader dt ++ analysis_text ++ reportFooter

/-- `save_analysis(analysis_text, output_path)` of `analyze_log.py`
(lines 118–140): the whole write is wrapped in `try/except`; on any
write error it returns `False` (and nothing durable exists), otherwise
it returns `True` having written `reportContent`. -/
def save_analysis (writeOk : Bool) (analysis_text : Text) (dt : DateTime) :
    Bool × Option Text :=
  if writeOk then (true, some (reportContent analysis_text dt)) else (false, none)

/-- `main()` of `analyze_log.py` (lines 195–268), after argument
validation: read the log (aborting with exit code 1 if unreadable,
per `read_log_file` lines 13–24), analyze, save, display.  The run
always ends with exit code 0 once the log was read. -/
def main (read : ReadOutcome) (api_key : Option Text) (backend : BackendOutcome)
    (writeOk : Bool) (dt : DateTime) : RunOut :=
  match read with
  | ReadOutcome.err _ =>
      { exitCode := 1, events := [Event.readLog], timeouts := [], written := none }
  | ReadOutcome.ok log_content =>
      let a := analyze_with_gemini api_key backend log_content 30000
      let s := save_analysis writeOk a.result dt
      { exitCode := 0,
        events := [Event.readLog] ++ a.events ++ [Event.saveAttempt]
          ++ (if s.1 then [Event.saveOk] else [Event.saveFail])
          ++ [Event.displayAnalysis],
        timeouts := a.timeouts,
        written := s.2 }

end AnalyzeLog

namespace AnalyzeAndComment

/-! Embedding of `src/analyze_and_comment.py` (analyzer with GitHub
PR commenting). -/

/-- Prompt template pieces of `analyze_and_comment.py` (lines 44–74):
the concatenation below is character-identical to the source
f-string. -/
def acP0 : Text := str "\nYou are an expert DevOps engineer analyzing a Jenkins CI/CD build failure.\n\nAnalyze this build log and provide a comprehensive but concise analysis:\n\n## 🔍 "

def acP1 : Text := str "\nIdentify the PRIMARY reason for the build failure (1-2 sentences)\n\n## 📍 "

def acP2 : Text := str "\nPoint to the specific file, line number, or command that failed\n\n## 🔧 "

def acP3 : Text := str "\nProvide 3-5 ACTIONABLE steps to resolve this issue:\n1. [First step with specific command or action]\n2. [Second step]\n3. [etc.]\n\n## 💡 "

def acP4 : Text := str "\nSuggest 2-3 best practices to prevent this issue in the future\n\n## 🔗 Relevant "

def acP5 : Text := str "\nIf applicable, mention relevant documentation or resources\n\nBuild Log:\n"

def acP6 : Text := str "\n\nFormat your response in clear Markdown suitable for a GitHub comment.\nBe technical but accessible. Focus on actionable insights.\n"

/-- The constant prompt text before the embedded window
(`analyze_and_comment.py` lines 44–68), up to and including the
opening `---` delimiter line. -/
def promptPre : Text :=
  acP0 ++ secRootCause ++ acP1 ++ secErrorLocation ++ acP2 ++ secRecommendedFixes
    ++ acP3 ++ secPreventionTips ++ acP4 ++ secDocumentation ++ acP5 ++ str "---\n"

/-- The constant prompt text after the embedded window
(`analyze_and_comment.py` lines 70–74), starting with the closing
`---` delimiter. -/
def promptPost : Text := str "\n---" ++ acP6

/-- The prompt f-string of `analyze_and_comment.py` (lines 44–74). -/
def promptOf (log_content : Text) : Text := promptPre ++ log_content ++ promptPost

/-- Fallback template pieces of `analyze_and_comment.py`
(lines 81–97). -/
def acE0 : Text := str "\n❌ **Error during AI analysis**\n```\n"

def acE1 : Text := str "\n```\n\n"

def acE2 : Text := str "\n- API key invalid or expired\n- Network connectivity issues\n- API rate limit exceeded\n- Model unavailable\n\n"

def acE3 : Text := str "\n2. Check network connectivity\n3. Visit https://aistudio.google.com to verify API status\n"

/-- The fallback analysis produced when the AI call raises
(`analyze_and_comment.py` lines 81–97), with the exception message
embedded; the concatenation is character-identical to the source
f-string. -/
def error_msg (msg : Text) : Text :=
  acE0 ++ msg
    ++ (acE1 ++ str "**Possible causes:**" ++ acE2
        ++ str "**Please check:**" ++ nl
        ++ str "1. Verify GEMINI_API_KEY is set correctly"
        ++ acE3)

/-- `analyze_with_gemini(log_content, max_chars=30000)` of
`analyze_and_comment.py` (lines 28–98); same structure as the
standalone variant, with this file's prompt wording and fallback.
The single `model.generate_content(prompt)` call carries no explicit
timeout argument in the source, recorded here as `none`. -/
def analyze_with_gemini (api_key : Option Text) (backend : BackendOutcome)
    (log_content : Text) (max_chars : Nat) : InvokeOut :=
  if pyTruthy api_key = false then
    { result := missingKeyMsg, events := [], timeouts := [], promptBuilt := none }
  else
    let t := truncate log_content max_chars
    let truncEvents : List Event := if t.2 then [Event.truncNote] else []
    let prompt := promptOf t.1
    match backend with
    | BackendOutcome.ok txt =>
        { result := txt, events := truncEvents ++ [Event.backendCall],
          timeouts := [none], promptBuilt := some prompt }
    | BackendOutcome.exc m =>
        { result := error_msg m, events := truncEvents ++ [Event.backendCall],
          timeouts := [none], promptBuilt := some prompt }

/-- Footer segment tags of `save_analysis` (`analyze_and_comment.py`
lines 140–141). -/
def acDone : Text := str "Analysis completed by "

def acPowered : Text := str "Powered by Google Gemini AI"

/-- The header written before the analysis text by `save_analysis`
(`analyze_and_comment.py` lines 134–137). -/
def reportHeader (dt : DateTime) : Text :=
  eq80 ++ nl ++ rcTitle ++ nl ++ rcGen ++ strftimeTS dt ++ nl ++ eq80 ++ nl2

/-- The footer written after the analysis text by `save_analysis`
(`analyze_and_comment.py` lines 139–142). -/
def reportFooter : Text :=
  nl2 ++ eq80 ++ nl ++ acDone ++ attribution ++ nl ++ acPowered ++ nl ++ eq80 ++ nl

/-- The exact file content written by `save_analysis`
(`analyze_and_comment.py` lines 133–142). -/
def reportContent (analysis_text : Text) (dt : DateTime) : Text :=
  reportHeader dt ++ analysis_text ++ reportFooter

/-- `save_analysis` of `analyze_and_comment.py` (lines 130–148):
wrapped in `try/except`, returns `False` on any write error. -/
def save_analysis (writeOk : Bool) (analysis_text : Text) (dt : DateTime) :
    Bool × Option Text :=
  if writeOk then (true, some (reportContent analysis_text dt)) else (false, none)

/-- The GitHub comment body built in `main`
(`analyze_and_comment.py` lines 217–224). -/
def comment_body (analysis : Text) (dt : DateTime) : Text :=
  str "## 🤖 AI Build Failure Analysis\n\n"
  ++ analysis
  ++ (str "\n\n---\n<sub>🔬 Analysis powered by **Google Gemini AI** | 🤖 Generated by **Jenkins AI Log Analyzer**</sub>\n<sub>⏰ "
      ++ strftimeTS dt ++ str " UTC</sub>\n")

/-- `post_github_comment` of `analyze_and_comment.py` (lines 101–127):
returns `False` when `GITHUB_TOKEN` is unset, `True` when the comment
was created, `False` when the GitHub client raised; it never lets an
exception escape. -/
def post_github_comment (github_token : Option Text) (postOk : Bool) : Bool :=
  if pyTruthy github_token = false then false else postOk

/-- `main()` of `analyze_and_comment.py` (lines 151–246), after
argument validation: read (exit 1 if unreadable), analyze, save,
post the comment, display the summary; exit code 0 once the log was
read, whether or not saving or posting succeeded. -/
def main (read : ReadOutcome) (api_key : Option Text) (backend : BackendOutcome)
    (writeOk : Bool) (github_token : Option Text) (postOk : Bool)
    (dt : DateTime) : RunOutPub :=
  match read with
  | ReadOutcome.err _ =>
      { exitCode := 1, events := [Event.readLog], timeouts := [],
        written := none, posted := false }
  | ReadOutcome.ok log_content =>
      let a := analyze_with_gemini api_key backend log_content 30000
      let s := save_analysis writeOk a.result dt
      let posted := post_github_comment github_token postOk
      { exitCode := 0,
        events := [Event.readLog] ++ a.events ++ [Event.saveAttempt]
          ++ (if s.1 then [Event.saveOk] else [Event.saveFail])
          ++ [Event.publishAttempt]
          ++ (if posted then [Event.publishOk] else [Event.publishWarn])
          ++ [Event.displayAnalysis],
        timeouts := a.timeouts,
        written := s.2,
        posted := posted }

end AnalyzeAndComment

namespace Scripts

/-! Embedding of `src/scripts/analyze_log.py` (minimal variant using
`requests` directly). -/

/-- Whether a character counts as indentation for `textwrap.dedent`
(`[ \t]` in its regexes). -/
def isWsCh (c : Char) : Bool := c = ' ' || c = '\t'

/-- Split a text at every line separator, keeping a (possibly empty)
piece between and around separators; recognizes `\n`, `\r` and `\r\n`
(the separators that occur in CI logs; Python `splitlines` additionally
recognizes rarer control characters). -/
def splitLB : Text → List Text
  | [] => [[]]
  | '\r' :: '\n' :: rest => [] :: splitLB rest
  | '\r' :: rest => [] :: splitLB rest
  | '\n' :: rest => [] :: splitLB rest
  | c :: rest =>
    match splitLB rest with
    | [] => [[c]]
    | l :: ls => (c :: l) :: ls

/-- Whether the text ends in a line separator. -/
def endsWithLB (s : Text) : Bool :=
  match s.getLast? with
  | some '\n' => true
  | some '\r' => true
  | _ => false

/-- Python `str.splitlines()`: the list of lines without their
terminators; a trailing terminator does not produce a final empty
line, and the empty string has no lines. -/
def pySplitlines (s : Text) : List Text :=
  if s.isEmpty then []
  else if endsWithLB s then (splitLB s).dropLast else splitLB s

/-- Python `str.split('\n')`: pieces between newline characters,
keeping empty pieces. -/
def splitNl : Text → List Text
  | [] => [[]]
  | '\n' :: rest => [] :: splitNl rest
  | c :: rest =>
    match splitNl rest with
    | [] => [[c]]
    | l :: ls => (c :: l) :: ls

/-- Longest common prefix of two texts (the margin-narrowing step of
`textwrap.dedent`). -/
def commonPre : Text → Text → Text
  | a :: as, b :: bs => if a = b then a :: commonPre as bs else []
  | _, _ => []

/-- `textwrap.dedent(text)` (CPython): lines consisting solely of
whitespace are normalized to empty; the margin is the longest common
leading whitespace of all remaining nonempty lines; that margin is
stripped from every line that starts with it. -/
def dedent (text : Text) : Text :=
  let lines := splitNl text
  let norm := lines.map (fun l => if !l.isEmpty && l.all isWsCh then [] else l)
  let indents := norm.filterMap
    (fun l => if l.isEmpty then none else some (l.takeWhile isWsCh))
  let margin := match indents with
    | [] => []
    | i :: is => is.foldl commonPre i
  let out := if margin.isEmpty then norm
    else norm.map (fun l => if margin.isPrefixOf l then l.drop margin.length else l)
  List.intercalate (str "\n") out

/-- `make_prompt(log_text)` of `scripts/analyze_log.py` (lines 8–20):
joins the last 2000 lines of the log and embeds them in a dedented
four-item instruction template between `LOG START`/`LOG END` marker
lines. -/
def make_prompt (log_text : Text) : Text :=
  let lines := pySplitlines log_text
  let log_tail := List.intercalate (str "\n") (lines.drop (lines.length - 2000))
  dedent
    (str "\n      You are an assistant that analyzes CI build logs. Provide:\n      1) Short summary\n      2) Most likely root cause(s)\n      3) Next debugging steps\n      4) Suggested fix\n      ========= LOG START =========\n      "
     ++ log_tail
     ++ str "\n      ========= LOG END =========\n    ")

/-- `call_gemini(prompt, api_key)` of `scripts/analyze_log.py`
(lines 22–31): the single `requests.post(..., timeout=60)`; a raise
from the transport or from `raise_for_status()` propagates
(`Except.error`), a JSON body with a well-shaped `candidates` entry
yields its text, a malformed `candidates` entry raises, and a body
without `candidates` is returned as `json.dumps(data, indent=2)`. -/
def call_gemini (h : HttpOutcome) : Except Text Text :=
  match h with
  | HttpOutcome.raises m => Except.error m
  | HttpOutcome.json (JsonData.withCandidates (Except.ok t)) => Except.ok t
  | HttpOutcome.json (JsonData.withCandidates (Except.error m)) => Except.error m
  | HttpOutcome.json (JsonData.without dump) => Except.ok dump

/-- `main()` of `scripts/analyze_log.py` (lines 33–51), after the
argument-count check: read the log (`read_log` has no `try/except`, so
an unreadable source crashes the interpreter with status 1), build the
prompt, then `sys.exit(1)` if `AI_API_KEY` is unset; otherwise one
backend call whose raise is caught into the
`"ERROR calling Gemini API: ..."` text, then the bare analysis is
written (an unwritable output file crashes uncaught, status 1) and
printed. -/
def main (read : ReadOutcome) (api_key : Option Text) (h : HttpOutcome)
    (writeOk : Bool) : RunOut :=
  match read with
  | ReadOutcome.err _ =>
      { exitCode := 1, events := [Event.readLog], timeouts := [], written := none }
  | ReadOutcome.ok log =>
      let _prompt := make_prompt log
      if pyTruthy api_key = false then
        { exitCode := 1, events := [Event.readLog], timeouts := [], written := none }
      else
        let analysis := match call_gemini h with
          | Except.ok t => t
          | Except.error e => str "ERROR calling Gemini API: " ++ e
        if writeOk then
          { exitCode := 0,
            events := [Event.readLog, Event.backendCall, Event.saveAttempt,
                       Event.saveOk, Event.displayAnalysis],
            timeouts := [some 60], written := some analysis }
        else
          { exitCode := 1,
            events := [Event.readLog, Event.backendCall, Event.saveAttempt,
                       Event.saveFail],
            timeouts := [some 60], written := none }

end Scripts

/-! ## Specification-side predicates -/

/-- All the given needles occur in the haystack, in the given order
(each next needle after the end of the previous one). -/
def seqContains : List Text → Text → Prop
  | [], _ => True
  | n :: ns, hay => ∃ a b, hay = a ++ n ++ b ∧ seqContains ns b

/-- Event `e1` occurs strictly before event `e2` in the trace. -/
def precedes (e1 e2 : Event) (tr : List Event) : Prop :=
  ∃ l1 l2 l3, tr = l1 ++ e1 :: (l2 ++ e2 :: l3)

/-! ## Helper lemmas -/

theorem sub_here (a n b : Text) : n <:+: a ++ n ++ b := ⟨a, b, rfl⟩

theorem sub_start (n b : Text) : n <:+: n ++ b := ⟨[], b, rfl⟩

theorem sub_ext_left {n y : Text} (x : Text) (h : n <:+: y) : n <:+: x ++ y := by
  obtain ⟨s, t, hy⟩ := h
  exact ⟨x ++ s, t, by rw [← hy]; simp [List.append_assoc]⟩

theorem sub_ext_right {n y : Text} (h : n <:+: y) (z : Text) : n <:+: y ++ z := by
  obtain ⟨s, t, hy⟩ := h
  exact ⟨s, t ++ z, by rw [← hy]; simp [List.append_assoc]⟩

theorem seqContains_sub :
    ∀ (ns : List Text) (hay : Text), seqContains ns hay → ∀ n ∈ ns, n <:+: hay := by
  intro ns
  induction ns with
  | nil => intro hay _ n hn; simp at hn
  | cons m ms ih =>
    intro hay h n hn
    obtain ⟨a, b, hab, hrest⟩ := h
    rcases List.mem_cons.mp hn with h1 | h2
    · subst h1; rw [hab]; exact sub_here a n b
    · rw [hab]
      exact sub_ext_left (a ++ m) (ih b hrest n h2)

theorem ne_nil_left {x : Text} (hx : x ≠ []) (y : Text) : x ++ y ≠ [] := by
  intro h
  exact hx (List.append_eq_nil.mp h).1

theorem digitVal_digitChar (n : Nat) (h : n < 10) :
    digitVal (Nat.digitChar n) = some n := by
  interval_cases n <;> decide

theorem parse_format (t : DateTime) (hy : t.year < 10000) (hmo : t.month < 100)
    (hd : t.day < 100) (hh : t.hour < 100) (hmi : t.minute < 100)
    (hs : t.second < 100) :
    parseTimestamp (strftimeTS t) = some t := by
  obtain ⟨y, mo, d, h, mi, s⟩ := t
  dsimp only at hy hmo hd hh hmi hs
  have e1 : digitVal (Nat.digitChar (y / 1000)) = some (y / 1000) :=
    digitVal_digitChar _ (by omega)
  have e2 : digitVal (Nat.digitChar (y / 100 % 10)) = some (y / 100 % 10) :=
    digitVal_digitChar _ (by omega)
  have e3 : digitVal (Nat.digitChar (y / 10 % 10)) = some (y / 10 % 10) :=
    digitVal_digitChar _ (by omega)
  have e4 : digitVal (Nat.digitChar (y % 10)) = some (y % 10) :=
    digitVal_digitChar _ (by omega)
  have e5 : digitVal (Nat.digitChar (mo / 10)) = some (mo / 10) :=
    digitVal_digitChar _ (by omega)
  have e6 : digitVal (Nat.digitChar (mo % 10)) = some (mo % 10) :=
    digitVal_digitChar _ (by omega)
  have e7 : digitVal (Nat.digitChar (d / 10)) = some (d / 10) :=
    digitVal_digitChar _ (by omega)
  have e8 : digitVal (Nat.digitChar (d % 10)) = some (d % 10) :=
    digitVal_digitChar _ (by omega)
  have e9 : digitVal (Nat.digitChar (h / 10)) = some (h / 10) :=
    digitVal_digitChar _ (by omega)
  have e10 : digitVal (Nat.digitChar (h % 10)) = some (h % 10) :=
    digitVal_digitChar _ (by omega)
  have e11 : digitVal (Nat.digitChar (mi / 10)) = some (mi / 10) :=
    digitVal_digitChar _ (by omega)
  have e12 : digitVal (Nat.digitChar (mi % 10)) = some (mi % 10) :=
    digitVal_digitChar _ (by omega)
  have e13 : digitVal (Nat.digitChar (s / 10)) = some (s / 10) :=
    digitVal_digitChar _ (by omega)
  have e14 : digitVal (Nat.digitChar (s % 10)) = some (s % 10) :=
    digitVal_digitChar _ (by omega)
  simp only [strftimeTS, pad4, pad2, List.cons_append, List.nil_append,
    List.append_assoc, List.singleton_append]
  simp only [parseTimestamp, e1, e2, e3, e4, e5, e6, e7, e8, e9, e10, e11, e12,
    e13, e14, Option.some.injEq, DateTime.mk.injEq]
  refine ⟨by omega, by omega, by omega, by omega, by omega, by omega⟩

/-! ## Claim theorems -/

/-- C1 (counterexample): the claim quantifies over every budget
`maxChars`, but at `maxChars = 0` the code deviates: for the
two-character log `"ab"` the truncating branch is taken, yet the text
after the marker is the whole source rather than the last `0`
characters, because Python `log_content[-0:]` denotes the whole string
(`-0 == 0`). -/
theorem c1_zero_budget_cx :
    (truncate (str "ab") 0).2 = true ∧
    (truncate (str "ab") 0).1 = omissionMarker ++ str "ab" ∧
    (truncate (str "ab") 0).1
      ≠ omissionMarker ++ (str "ab").drop ((str "ab").length - 0) := by
  exact ⟨by decide, by decide, by decide⟩

/-- C1 (amended: restricted to positive budgets): for every log
document and every positive budget `maxChars` (default 30000), if the
document's length is at most `maxChars` the truncation step returns
the text unchanged with `truncated = false`; if the length exceeds
`maxChars` it returns the fixed omission marker followed by exactly
the last `maxChars` characters of the source (a suffix of the source
of length `maxChars`), with `truncated = true`. -/
theorem c1_truncation (log : Text) (maxChars : Nat) (hpos : 0 < maxChars) :
    (log.length ≤ maxChars → truncate log maxChars = (log, false)) ∧
    (maxChars < log.length →
      (truncate log maxChars).2 = true ∧
      (truncate log maxChars).1
        = omissionMarker ++ log.drop (log.length - maxChars) ∧
      (log.drop (log.length - maxChars)).length = maxChars ∧
      ∃ t, t ++ log.drop (log.length - maxChars) = log) := by
  constructor
  · intro hle
    have hnot : ¬ maxChars < log.length := by omega
    simp [truncate, hnot]
  · intro hlt
    have hk : ¬ maxChars = 0 := by omega
    refine ⟨by simp [truncate, hlt], by simp [truncate, hlt, pyTail, hk], ?_, ?_⟩
    · rw [List.length_drop]; omega
    · exact ⟨log.take (log.length - maxChars), List.take_append_drop _ _⟩

/-- C1 (witness): the amended theorem applied at concrete inputs on
both sides of the budget. -/
theorem c1_truncation_w :
    truncate (str "ab") 5 = (str "ab", false) ∧
    (truncate (str "abcdef") 2).1 = omissionMarker ++ str "ef" := by
  constructor
  · exact (c1_truncation (str "ab") 5 (by decide)).1 (by decide)
  · have hmain := ((c1_truncation (str "abcdef") 2 (by decide)).2 (by decide)).2.1
    rw [hmain]; decide

/-- C9 (confirmed): when the credential is absent, both full analyzers
return the same fixed message for every log content and every budget —
no truncation notice is emitted and no backend call is issued, so the
missing-credential output does not depend on the log input at all. -/
theorem c9_missing_key_independent (l1 l2 : Text) (m1 m2 : Nat)
    (b1 b2 : BackendOutcome) :
    AnalyzeLog.analyze_with_gemini none b1 l1 m1
      = AnalyzeLog.analyze_with_gemini none b2 l2 m2 ∧
    (AnalyzeLog.analyze_with_gemini none b1 l1 m1).result = missingKeyMsg ∧
    (AnalyzeLog.analyze_with_gemini none b1 l1 m1).events = [] ∧
    (AnalyzeLog.analyze_with_gemini none b1 l1 m1).timeouts = [] ∧
    AnalyzeAndComment.analyze_with_gemini none b1 l1 m1
      = AnalyzeAndComment.analyze_with_gemini none b2 l2 m2 ∧
    (AnalyzeAndComment.analyze_with_gemini none b1 l1 m1).result = missingKeyMsg ∧
    (AnalyzeAndComment.analyze_with_gemini none b1 l1 m1).events = [] ∧
    (AnalyzeAndComment.analyze_with_gemini none b1 l1 m1).timeouts = [] := by
  exact ⟨rfl, rfl, rfl, rfl, rfl, rfl, rfl, rfl⟩

/-- C3 (counterexample): the claim says the run does not abort on the
missing-credential path, but `scripts/analyze_log.py` calls
`sys.exit(1)` when `AI_API_KEY` is unset: with a readable log and no
credential the run exits with code 1 (and issues no network call). -/
theorem c3_scripts_abort_cx :
    (Scripts.main (ReadOutcome.ok (str "BUILD FAILED")) none
        (HttpOutcome.raises (str "boom")) true).exitCode = 1 ∧
    (Scripts.main (ReadOutcome.ok (str "BUILD FAILED")) none
        (HttpOutcome.raises (str "boom")) true).timeouts = [] := by
  exact ⟨by decide, by decide⟩

/-- C3 (amended): with the credential absent, both full analyzers
return the fixed message `"❌ Error: GEMINI_API_KEY environment
variable not set"` immediately — zero backend calls, no truncation
performed — and their runs continue to completion with exit code 0
(how to obtain and set the key is printed separately by the CLI, not
in this message); the minimal script variant instead prints an error
and exits with code 1, also before any network call. -/
theorem c3_missing_credential (l : Text) (m : Nat) (b : BackendOutcome)
    (w p : Bool) (dt : DateTime) (tok : Option Text) (h : HttpOutcome) :
    AnalyzeLog.analyze_with_gemini none b l m
      = { result := missingKeyMsg, events := [], timeouts := [],
          promptBuilt := none } ∧
    AnalyzeAndComment.analyze_with_gemini none b l m
      = { result := missingKeyMsg, events := [], timeouts := [],
          promptBuilt := none } ∧
    (AnalyzeLog.main (ReadOutcome.ok l) none b w dt).exitCode = 0 ∧
    (AnalyzeAndComment.main (ReadOutcome.ok l) none b w tok p dt).exitCode = 0 ∧
    (Scripts.main (ReadOutcome.ok l) none h w).exitCode = 1 ∧
    (Scripts.main (ReadOutcome.ok l) none h w).timeouts = [] := by
  exact ⟨rfl, rfl, rfl, rfl, rfl, rfl⟩

/-- C8 (counterexample): an unreadable log source is not the only
fatal, pipeline-aborting condition: in `scripts/analyze_log.py` a run
with a readable log, a present credential and a delivered backend
response still crashes (uncaught `open` failure, exit status 1) when
the output file cannot be written. -/
theorem c8_other_fatal_cx :
    (Scripts.main (ReadOutcome.ok (str "BUILD OK")) (some (str "k"))
        (HttpOutcome.json (JsonData.without (str "resp"))) false).exitCode
      = 1 := by
  decide

/-- C8 (amended): for every absent or unreadable log source, all three
variants abort with exit code 1, issue no network call, write nothing
and enter no downstream stage; and in the two full analyzers this is
the only fatal condition — once the log is read the run ends with exit
code 0 whatever else happens.  (The minimal script variant also aborts
on a missing credential and on an unwritable output file.) -/
theorem c8_unreadable_log_aborts (m l : Text) (k tok : Option Text)
    (b : BackendOutcome) (w p : Bool) (dt : DateTime) (h : HttpOutcome) :
    AnalyzeLog.main (ReadOutcome.err m) k b w dt
      = { exitCode := 1, events := [Event.readLog], timeouts := [],
          written := none } ∧
    AnalyzeAndComment.main (ReadOutcome.err m) k b w tok p dt
      = { exitCode := 1, events := [Event.readLog], timeouts := [],
          written := none, posted := false } ∧
    Scripts.main (ReadOutcome.err m) k h w
      = { exitCode := 1, events := [Event.readLog], timeouts := [],
          written := none } ∧
    (AnalyzeLog.main (ReadOutcome.ok l) k b w dt).exitCode = 0 ∧
    (AnalyzeAndComment.main (ReadOutcome.ok l) k b w tok p dt).exitCode = 0 := by
  exact ⟨rfl, rfl, rfl, rfl, rfl⟩

/-- C10 (confirmed): a failed report write is non-fatal in both full
analyzers: `save_analysis` catches the write error and returns
`False` with nothing written, and the run still continues — the
analysis is displayed, the exit code stays 0, and in the publishing
variant the publish step is still attempted. -/
theorem c10_save_failure_nonfatal (a l : Text) (k tok : Option Text)
    (b : BackendOutcome) (p : Bool) (dt : DateTime) :
    AnalyzeLog.save_analysis false a dt = (false, none) ∧
    AnalyzeAndComment.save_analysis false a dt = (false, none) ∧
    (AnalyzeLog.main (ReadOutcome.ok l) k b false dt).exitCode = 0 ∧
    Event.displayAnalysis ∈ (AnalyzeLog.main (ReadOutcome.ok l) k b false dt).events ∧
    (AnalyzeLog.main (ReadOutcome.ok l) k b false dt).written = none ∧
    (AnalyzeAndComment.main (ReadOutcome.ok l) k b false tok p dt).exitCode = 0 ∧
    Event.publishAttempt
      ∈ (AnalyzeAndComment.main (ReadOutcome.ok l) k b false tok p dt).events ∧
    Event.displayAnalysis
      ∈ (AnalyzeAndComment.main (ReadOutcome.ok l) k b false tok p dt).events := by
  refine ⟨rfl, rfl, rfl, ?_, rfl, rfl, ?_, ?_⟩
  · simp [AnalyzeLog.main, AnalyzeLog.save_analysis]
  · simp [AnalyzeAndComment.main, AnalyzeAndComment.save_analysis]
  · simp [AnalyzeAndComment.main, AnalyzeAndComment.save_analysis]

/-- C5 (counterexample): the claim says the report has already been
durably saved in every run that attempts publishing, but `main` of
`analyze_and_comment.py` discards the return value of `save_analysis`:
in a run whose report write fails, nothing was written and the publish
step is still attempted. -/
theorem c5_publish_without_save_cx :
    (AnalyzeAndComment.main (ReadOutcome.ok (str "L")) (some (str "k"))
        (BackendOutcome.ok (str "A")) false (some (str "t")) true
        ⟨2025, 1, 2, 3, 4, 5⟩).written = none ∧
    Event.publishAttempt ∈ (AnalyzeAndComment.main (ReadOutcome.ok (str "L"))
        (some (str "k")) (BackendOutcome.ok (str "A")) false (some (str "t")) true
        ⟨2025, 1, 2, 3, 4, 5⟩).events := by
  exact ⟨by decide, by decide⟩

/-- C5 (amended): in every run of the publishing variant the save step
is attempted strictly before the publish step (so whenever the write
succeeds, the report is durably saved before publishing), a failed
save does not block the publish attempt, and a publish failure is
reported as a warning event while the run still completes with exit
code 0 — it never raises and never turns the run into an overall
failure. -/
theorem c5_save_before_publish (l : Text) (k tok : Option Text)
    (b : BackendOutcome) (w p : Bool) (dt : DateTime) :
    precedes Event.saveAttempt Event.publishAttempt
      (AnalyzeAndComment.main (ReadOutcome.ok l) k b w tok p dt).events ∧
    (AnalyzeAndComment.main (ReadOutcome.ok l) k b w tok p dt).exitCode = 0 ∧
    (AnalyzeAndComment.post_github_comment tok p = false →
      Event.publishWarn
        ∈ (AnalyzeAndComment.main (ReadOutcome.ok l) k b w tok p dt).events) := by
  refine ⟨⟨Event.readLog :: (AnalyzeAndComment.analyze_with_gemini k b l 30000).events,
      if (AnalyzeAndComment.save_analysis w
          (AnalyzeAndComment.analyze_with_gemini k b l 30000).result dt).1
        then [Event.saveOk] else [Event.saveFail],
      (if AnalyzeAndComment.post_github_comment tok p
        then [Event.publishOk] else [Event.publishWarn])
        ++ [Event.displayAnalysis], ?_⟩, rfl, ?_⟩
  · simp [AnalyzeAndComment.main]
  · intro hpost
    simp [AnalyzeAndComment.main, hpost]

/-- C5 (witness): the amended theorem applied to a concrete run whose
publish step fails (no token), showing the warning event. -/
theorem c5_save_before_publish_w :
    Event.publishWarn ∈ (AnalyzeAndComment.main (ReadOutcome.ok (str "L"))
        (some (str "k")) (BackendOutcome.ok (str "A")) true none true
        ⟨2025, 1, 2, 3, 4, 5⟩).events :=
  (c5_save_before_publish (str "L") (some (str "k")) none
      (BackendOutcome.ok (str "A")) true true ⟨2025, 1, 2, 3, 4, 5⟩).2.2
    (by decide)

/-- C6 (counterexample): the claim says the single backend call is
bounded by an explicit timeout of about 60 seconds, but the full
analyzers pass no timeout argument at all to
`model.generate_content(prompt)`: in a concrete key-present run the
one issued call carries no explicit timeout. -/
theorem c6_no_explicit_timeout_cx :
    (AnalyzeLog.analyze_with_gemini (some (str "k")) (BackendOutcome.ok (str "A"))
        (str "L") 30000).timeouts = [none] ∧
    ¬ some 60 ∈ (AnalyzeLog.analyze_with_gemini (some (str "k"))
        (BackendOutcome.ok (str "A")) (str "L") 30000).timeouts := by
  exact ⟨by decide, by decide⟩

/-- C6 (amended): with a present credential every variant issues
exactly one synchronous backend call per run — no retries, no second
attempt even when the call fails — but only the minimal script variant
passes an explicit 60-second timeout (`requests.post(..., timeout=60)`);
the full analyzers pass no explicit timeout to the client call. -/
theorem c6_single_call (key l : Text) (hk : pyTruthy (some key) = true)
    (b : BackendOutcome) (h : HttpOutcome) (w : Bool) (m : Nat) :
    (AnalyzeLog.analyze_with_gemini (some key) b l m).timeouts = [none] ∧
    (AnalyzeAndComment.analyze_with_gemini (some key) b l m).timeouts = [none] ∧
    (Scripts.main (ReadOutcome.ok l) (some key) h w).timeouts = [some 60] := by
  refine ⟨?_, ?_, ?_⟩
  · cases b <;> simp [AnalyzeLog.analyze_with_gemini, hk]
  · cases b <;> simp [AnalyzeAndComment.analyze_with_gemini, hk]
  · cases w <;> simp [Scripts.main, hk]

/-- C6 (witness): the amended theorem applied to a concrete failing
backend attempt — still exactly one call, with no explicit timeout. -/
theorem c6_single_call_w :
    (AnalyzeLog.analyze_with_gemini (some (str "k"))
        (BackendOutcome.exc (str "boom")) (str "L") 30000).timeouts = [none] :=
  (c6_single_call (str "k") (str "L") (by decide)
      (BackendOutcome.exc (str "boom")) (HttpOutcome.raises (str "x")) true 30000).1

/-- C2 (counterexample): the claim says the fallback body contains
troubleshooting guidance, but in `scripts/analyze_log.py` a failed
backend call produces exactly the text
`"ERROR calling Gemini API: <e>"`, which contains no troubleshooting
guidance — no causes, no enumerated steps. -/
theorem c2_scripts_no_guidance_cx :
    (Scripts.main (ReadOutcome.ok (str "L")) (some (str "k"))
        (HttpOutcome.raises (str "boom")) true).written
      = some (str "ERROR calling Gemini API: boom") ∧
    ¬ (str "Troubleshooting" <:+: str "ERROR calling Gemini API: boom") ∧
    ¬ (str "Possible" <:+: str "ERROR calling Gemini API: boom") ∧
    ¬ (str "1. " <:+: str "ERROR calling Gemini API: boom") := by
  exact ⟨by decide, by decide, by decide, by decide⟩

/-- C2 (amended): whenever the backend attempt fails with a present
credential, the two full analyzers return their fixed fallback body —
non-empty, containing the possible causes and the enumerated
troubleshooting steps — no exception crosses the analysis boundary (it
is a total function into text), the run continues with exit code 0 and
the report is still produced; the minimal script variant also converts
the raise into a non-empty report and exits 0, but its fallback
`"ERROR calling Gemini API: <e>"` carries no troubleshooting
guidance. -/
theorem c2_fail_soft (key l msg : Text) (hk : pyTruthy (some key) = true)
    (m : Nat) (w p : Bool) (tok : Option Text) (dt : DateTime) :
    (AnalyzeLog.analyze_with_gemini (some key) (BackendOutcome.exc msg) l m).result
      = AnalyzeLog.error_analysis msg ∧
    AnalyzeLog.error_analysis msg ≠ [] ∧
    str "**Possible Causes:**" <:+: AnalyzeLog.error_analysis msg ∧
    str "**Troubleshooting Steps:**" <:+: AnalyzeLog.error_analysis msg ∧
    str "1. Verify GEMINI_API_KEY environment variable is set correctly"
      <:+: AnalyzeLog.error_analysis msg ∧
    (AnalyzeAndComment.analyze_with_gemini (some key) (BackendOutcome.exc msg) l m).result
      = AnalyzeAndComment.error_msg msg ∧
    AnalyzeAndComment.error_msg msg ≠ [] ∧
    str "**Possible causes:**" <:+: AnalyzeAndComment.error_msg msg ∧
    str "**Please check:**" <:+: AnalyzeAndComment.error_msg msg ∧
    str "1. Verify GEMINI_API_KEY is set correctly"
      <:+: AnalyzeAndComment.error_msg msg ∧
    (AnalyzeLog.main (ReadOutcome.ok l) (some key) (BackendOutcome.exc msg) true dt).written
      = some (AnalyzeLog.reportContent (AnalyzeLog.error_analysis msg) dt) ∧
    (AnalyzeLog.main (ReadOutcome.ok l) (some key) (BackendOutcome.exc msg) w dt).exitCode
      = 0 ∧
    (AnalyzeAndComment.main (ReadOutcome.ok l) (some key) (BackendOutcome.exc msg)
        w tok p dt).exitCode = 0 ∧
    (Scripts.main (ReadOutcome.ok l) (some key) (HttpOutcome.raises msg) true).written
      = some (str "ERROR calling Gemini API: " ++ msg) ∧
    (Scripts.main (ReadOutcome.ok l) (some key) (HttpOutcome.raises msg) true).exitCode
      = 0 ∧
    str "ERROR calling Gemini API: " ++ msg ≠ [] := by
  refine ⟨?_, ?_, ?_, ?_, ?_, ?_, ?_, ?_, ?_, ?_, ?_, ?_, ?_, ?_, ?_, ?_⟩
  · simp [AnalyzeLog.analyze_with_gemini, hk]
  · unfold AnalyzeLog.error_analysis
    exact ne_nil_left (ne_nil_left (by decide) _) _
  · unfold AnalyzeLog.error_analysis
    exact sub_ext_left _
      (sub_ext_right (sub_ext_right (sub_ext_right (sub_ext_right
        (sub_here _ _ _) _) _) _) _)
  · unfold AnalyzeLog.error_analysis
    exact sub_ext_left _
      (sub_ext_right (sub_ext_right (sub_here _ _ _) _) _)
  · unfold AnalyzeLog.error_analysis
    exact sub_ext_left _ (sub_here _ _ _)
  · simp [AnalyzeAndComment.analyze_with_gemini, hk]
  · unfold AnalyzeAndComment.error_msg
    exact ne_nil_left (ne_nil_left (by decide) _) _
  · unfold AnalyzeAndComment.error_msg
    exact sub_ext_left _
      (sub_ext_right (sub_ext_right (sub_ext_right (sub_ext_right
        (sub_here _ _ _) _) _) _) _)
  · unfold AnalyzeAndComment.error_msg
    exact sub_ext_left _
      (sub_ext_right (sub_ext_right (sub_here _ _ _) _) _)
  · unfold AnalyzeAndComment.error_msg
    exact sub_ext_left _ (sub_here _ _ _)
  · simp [AnalyzeLog.main, AnalyzeLog.analyze_with_gemini, hk,
      AnalyzeLog.save_analysis]
  · simp [AnalyzeLog.main]
  · simp [AnalyzeAndComment.main]
  · simp [Scripts.main, hk, Scripts.call_gemini]
  · simp [Scripts.main, hk]
  · exact ne_nil_left (by decide) _

/-- C2 (witness): the amended theorem applied at a concrete exception
message. -/
theorem c2_fail_soft_w :
    (AnalyzeLog.analyze_with_gemini (some (str "k"))
        (BackendOutcome.exc (str "boom")) (str "L") 30000).result
      = AnalyzeLog.error_analysis (str "boom") :=
  (c2_fail_soft (str "k") (str "L") (str "boom") (by decide) 30000 true true
      none ⟨2025, 1, 2, 3, 4, 5⟩).1

/-- C4 (counterexample): the claim's envelope does not hold for the
report written by `scripts/analyze_log.py`: its `main` writes the bare
analysis text — for a successful backend response `"OK"` the saved
report is exactly `"OK"`, containing neither the title line nor a
generation timestamp nor any attribution footer. -/
theorem c4_scripts_bare_report_cx :
    (Scripts.main (ReadOutcome.ok (str "L")) (some (str "k"))
        (HttpOutcome.json (JsonData.withCandidates (Except.ok (str "OK"))))
        true).written = some (str "OK") ∧
    ¬ (rcTitle <:+: str "OK") ∧
    ¬ (rcGen <:+: str "OK") ∧
    ¬ (attribution <:+: str "OK") := by
  exact ⟨by decide, by decide, by decide, by decide⟩

/-- C4 (amended): in the two full analyzers, for every analysis body
(success text and fallback alike) the formatted report contains the
title line, the `Generated:` line with a parseable timestamp (the
`strftime` rendering parses back to the generating instant), the tool
attribution and the closing footer; and the envelope has the same
shape regardless of variant — the content is always
`header ++ body ++ footer` with the body the only varying part.  The
minimal script variant writes the bare analysis with no envelope. -/
theorem c4_report_envelope (body : Text) (dt : DateTime)
    (hy : dt.year < 10000) (hmo : dt.month < 100) (hd : dt.day < 100)
    (hh : dt.hour < 100) (hmi : dt.minute < 100) (hs : dt.second < 100) :
    rcTitle <:+: AnalyzeLog.reportContent body dt ∧
    rcGen ++ strftimeTS dt ++ nl <:+: AnalyzeLog.reportContent body dt ∧
    parseTimestamp (strftimeTS dt) = some dt ∧
    attribution <:+: AnalyzeLog.reportContent body dt ∧
    AnalyzeLog.alEnd <:+: AnalyzeLog.reportContent body dt ∧
    (∃ pre post, ∀ b2 : Text,
      AnalyzeLog.reportContent b2 dt = pre ++ b2 ++ post) ∧
    rcTitle <:+: AnalyzeAndComment.reportContent body dt ∧
    rcGen ++ strftimeTS dt ++ nl <:+: AnalyzeAndComment.reportContent body dt ∧
    attribution <:+: AnalyzeAndComment.reportContent body dt ∧
    AnalyzeAndComment.acPowered <:+: AnalyzeAndComment.reportContent body dt ∧
    (∃ pre post, ∀ b2 : Text,
      AnalyzeAndComment.reportContent b2 dt = pre ++ b2 ++ post) := by
  refine ⟨?_, ?_, parse_format dt hy hmo hd hh hmi hs, ?_, ?_, ?_, ?_, ?_, ?_, ?_, ?_⟩
  · exact ⟨eq80 ++ nl,
      nl ++ eq80 ++ nl ++ rcGen ++ strftimeTS dt ++ nl ++ AnalyzeLog.alTagAnalyzer
        ++ attribution ++ nl ++ AnalyzeLog.alTagModel ++ nl ++ eq80 ++ nl2
        ++ body ++ AnalyzeLog.reportFooter,
      by simp [AnalyzeLog.reportContent, AnalyzeLog.reportHeader, List.append_assoc]⟩
  · exact ⟨eq80 ++ nl ++ rcTitle ++ nl ++ eq80 ++ nl,
      AnalyzeLog.alTagAnalyzer ++ attribution ++ nl ++ AnalyzeLog.alTagModel
        ++ nl ++ eq80 ++ nl2 ++ body ++ AnalyzeLog.reportFooter,
      by simp [AnalyzeLog.reportContent, AnalyzeLog.reportHeader, List.append_assoc]⟩
  · exact ⟨eq80 ++ nl ++ rcTitle ++ nl ++ eq80 ++ nl ++ rcGen ++ strftimeTS dt
        ++ nl ++ AnalyzeLog.alTagAnalyzer,
      nl ++ AnalyzeLog.alTagModel ++ nl ++ eq80 ++ nl2 ++ body
        ++ AnalyzeLog.reportFooter,
      by simp [AnalyzeLog.reportContent, AnalyzeLog.reportHeader, List.append_assoc]⟩
  · exact ⟨AnalyzeLog.reportHeader dt ++ body ++ nl2 ++ eq80 ++ nl,
      nl ++ eq80 ++ nl,
      by simp [AnalyzeLog.reportContent, AnalyzeLog.reportFooter, List.append_assoc]⟩
  · exact ⟨AnalyzeLog.reportHeader dt, AnalyzeLog.reportFooter, fun b2 => rfl⟩
  · exact ⟨eq80 ++ nl,
      nl ++ rcGen ++ strftimeTS dt ++ nl ++ eq80 ++ nl2 ++ body
        ++ AnalyzeAndComment.reportFooter,
      by simp [AnalyzeAndComment.reportContent, AnalyzeAndComment.reportHeader,
        List.append_assoc]⟩
  · exact ⟨eq80 ++ nl ++ rcTitle ++ nl,
      eq80 ++ nl2 ++ body ++ AnalyzeAndComment.reportFooter,
      by simp [AnalyzeAndComment.reportContent, AnalyzeAndComment.reportHeader,
        List.append_assoc]⟩
  · exact ⟨AnalyzeAndComment.reportHeader dt ++ body ++ nl2 ++ eq80 ++ nl
        ++ AnalyzeAndComment.acDone,
      nl ++ AnalyzeAndComment.acPowered ++ nl ++ eq80 ++ nl,
      by simp [AnalyzeAndComment.reportContent, AnalyzeAndComment.reportFooter,
        List.append_assoc]⟩
  · exact ⟨AnalyzeAndComment.reportHeader dt ++ body ++ nl2 ++ eq80 ++ nl
        ++ AnalyzeAndComment.acDone ++ attribution ++ nl,
      nl ++ eq80 ++ nl,
      by simp [AnalyzeAndComment.reportContent, AnalyzeAndComment.reportFooter,
        List.append_assoc]⟩
  · exact ⟨AnalyzeAndComment.reportHeader dt, AnalyzeAndComment.reportFooter,
      fun b2 => rfl⟩

/-- C4 (witness): the amended theorem applied at a concrete timestamp;
the rendered timestamp parses back to the instant. -/
theorem c4_report_envelope_w :
    parseTimestamp (strftimeTS ⟨2025, 10, 12, 13, 45, 59⟩)
      = some ⟨2025, 10, 12, 13, 45, 59⟩ :=
  (c4_report_envelope (str "B") ⟨2025, 10, 12, 13, 45, 59⟩ (by decide) (by decide)
      (by decide) (by decide) (by decide) (by decide)).2.2.1

/-- C7 (counterexample): the claim's five named sections are not asked
for by `scripts/analyze_log.py`: its rendered prompt (here on the
one-character log `"x"`) asks for four different items (summary, root
cause(s), debugging steps, suggested fix) and in particular never
mentions `Prevention Tips`. -/
theorem c7_scripts_sections_cx :
    ¬ seqContains [secRootCause, secErrorLocation, secRecommendedFixes,
        secPreventionTips, secResources] (Scripts.make_prompt (str "x")) := by
  intro hseq
  have hp := seqContains_sub _ _ hseq secPreventionTips (by simp)
  have hno : ¬ secPreventionTips <:+: Scripts.make_prompt (str "x") := by decide
  exact hno hp

/-- C7 (amended): in the two full analyzers the prompt is a pure
function of the truncated window: a constant instruction template
embeds the window between the literal `---` delimiter lines and asks,
in order, for Root Cause, Error Location, Recommended Fixes,
Prevention Tips and a documentation/resources section; only the
embedded window varies, and the invoker sends exactly this prompt over
the truncated window.  The minimal script variant instead renders a
four-item instruction list around the joined last 2000 log lines. -/
theorem c7_prompt_template :
    (∀ w : Text, AnalyzeLog.promptOf w
        = AnalyzeLog.promptPre ++ w ++ AnalyzeLog.promptPost) ∧
    seqContains [secRootCause, secErrorLocation, secRecommendedFixes,
        secPreventionTips, secResources] AnalyzeLog.promptPre ∧
    (∃ pre0, AnalyzeLog.promptPre = pre0 ++ str "---\n") ∧
    (∃ post0, AnalyzeLog.promptPost = str "\n---" ++ post0) ∧
    (∀ w : Text, AnalyzeAndComment.promptOf w
        = AnalyzeAndComment.promptPre ++ w ++ AnalyzeAndComment.promptPost) ∧
    seqContains [secRootCause, secErrorLocation, secRecommendedFixes,
        secPreventionTips, secDocumentation] AnalyzeAndComment.promptPre ∧
    (∃ pre0, AnalyzeAndComment.promptPre = pre0 ++ str "---\n") ∧
    (∃ post0, AnalyzeAndComment.promptPost = str "\n---" ++ post0) ∧
    (∀ (key l : Text) (b : BackendOutcome) (m : Nat),
      pyTruthy (some key) = true →
      (AnalyzeLog.analyze_with_gemini (some key) b l m).promptBuilt
        = some (AnalyzeLog.promptOf (truncate l m).1)) := by
  refine ⟨fun w => rfl, ?_, ?_, ⟨AnalyzeLog.alP6, rfl⟩, fun w => rfl, ?_, ?_,
    ⟨AnalyzeAndComment.acP6, rfl⟩, ?_⟩
  · simp only [seqContains]
    refine ⟨AnalyzeLog.alP0,
      AnalyzeLog.alP1 ++ secErrorLocation ++ AnalyzeLog.alP2 ++ secRecommendedFixes
        ++ AnalyzeLog.alP3 ++ secPreventionTips ++ AnalyzeLog.alP4 ++ secResources
        ++ AnalyzeLog.alP5 ++ str "---\n",
      by simp [AnalyzeLog.promptPre, List.append_assoc],
      AnalyzeLog.alP1,
      AnalyzeLog.alP2 ++ secRecommendedFixes ++ AnalyzeLog.alP3 ++ secPreventionTips
        ++ AnalyzeLog.alP4 ++ secResources ++ AnalyzeLog.alP5 ++ str "---\n",
      by simp [List.append_assoc],
      AnalyzeLog.alP2,
      AnalyzeLog.alP3 ++ secPreventionTips ++ AnalyzeLog.alP4 ++ secResources
        ++ AnalyzeLog.alP5 ++ str "---\n",
      by simp [List.append_assoc],
      AnalyzeLog.alP3,
      AnalyzeLog.alP4 ++ secResources ++ AnalyzeLog.alP5 ++ str "---\n",
      by simp [List.append_assoc],
      AnalyzeLog.alP4,
      AnalyzeLog.alP5 ++ str "---\n",
      by simp [List.append_assoc],
      trivial⟩
  · exact ⟨AnalyzeLog.alP0 ++ secRootCause ++ AnalyzeLog.alP1 ++ secErrorLocation
      ++ AnalyzeLog.alP2 ++ secRecommendedFixes ++ AnalyzeLog.alP3
      ++ secPreventionTips ++ AnalyzeLog.alP4 ++ secResources ++ AnalyzeLog.alP5,
      by simp [AnalyzeLog.promptPre, List.append_assoc]⟩
  · simp only [seqContains]
    refine ⟨AnalyzeAndComment.acP0,
      AnalyzeAndComment.acP1 ++ secErrorLocation ++ AnalyzeAndComment.acP2
        ++ secRecommendedFixes ++ AnalyzeAndComment.acP3 ++ secPreventionTips
        ++ AnalyzeAndComment.acP4 ++ secDocumentation ++ AnalyzeAndComment.acP5
        ++ str "---\n",
      by simp [AnalyzeAndComment.promptPre, List.append_assoc],
      AnalyzeAndComment.acP1,
      AnalyzeAndComment.acP2 ++ secRecommendedFixes ++ AnalyzeAndComment.acP3
        ++ secPreventionTips ++ AnalyzeAndComment.acP4 ++ secDocumentation
        ++ AnalyzeAndComment.acP5 ++ str "---\n",
      by simp [List.append_assoc],
      AnalyzeAndComment.acP2,
      AnalyzeAndComment.acP3 ++ secPreventionTips ++ AnalyzeAndComment.acP4
        ++ secDocumentation ++ AnalyzeAndComment.acP5 ++ str "---\n",
      by simp [List.append_assoc],
      AnalyzeAndComment.acP3,
      AnalyzeAndComment.acP4 ++ secDocumentation ++ AnalyzeAndComment.acP5
        ++ str "---\n",
      by simp [List.append_assoc],
      AnalyzeAndComment.acP4,
      AnalyzeAndComment.acP5 ++ str "---\n",
      by simp [List.append_assoc],
      trivial⟩
  · exact ⟨AnalyzeAndComment.acP0 ++ secRootCause ++ AnalyzeAndComment.acP1
      ++ secErrorLocation ++ AnalyzeAndComment.acP2 ++ secRecommendedFixes
      ++ AnalyzeAndComment.acP3 ++ secPreventionTips ++ AnalyzeAndComment.acP4
      ++ secDocumentation ++ AnalyzeAndComment.acP5,
      by simp [AnalyzeAndComment.promptPre, List.append_assoc]⟩
  · intro key l b m hk
    cases b <;> simp [AnalyzeLog.analyze_with_gemini, hk]

/-- C7 (witness): the prompt actually sent by the standalone analyzer
on a concrete key-present run is the template over the truncated
window. -/
theorem c7_prompt_template_w :
    (AnalyzeLog.analyze_with_gemini (some (str "k")) (BackendOutcome.ok (str "A"))
        (str "L") 30000).promptBuilt
      = some (AnalyzeLog.promptOf (truncate (str "L") 30000).1) :=
  c7_prompt_template.2.2.2.2.2.2.2.2 (str "k") (str "L")
    (BackendOutcome.ok (str "A")) 30000 (by decide)

